import Mathlib

/-!
Shallow embedding of the `EnhancedDigitalTwinApp` telemetry store
(`WEB_APPLICATION/enhanced_app.py`): sample devices, sample alerts, the
TTL-boxed dashboard cache, and the read accessors that mutate state.

Modelling conventions, used throughout:

* Real-valued quantities (sensor values, health scores, …) are modelled as
  exact rationals `ℚ`; timestamps are `Int` seconds.
* All randomness is passed in explicitly as oracle arguments: a call to
  `np.random.uniform(a, b)` is modelled as `a + r * (b - a)` for an oracle
  draw `r` with `0 ≤ r ≤ 1`, `np.random.random()` as a draw in `[0, 1)`,
  and a weighted categorical `np.random.choice(xs, p)` by inverse-CDF
  thresholds on a uniform draw.
* Python's `round(x, n)` rounds half to even; `rhe` below implements that
  tie-breaking exactly, and `round2`/`round1` are `round(·, 2)`/`round(·, 1)`.
-/

/-- Round half to even: the semantics of Python's builtin `round` on the
fractional part.  For a non-tie the nearest integer, for an exact `.5`
fraction the even neighbour. -/
def rhe (x : ℚ) : ℤ :=
  if x - (⌊x⌋ : ℚ) = 1/2 then (if 2 ∣ ⌊x⌋ then ⌊x⌋ else ⌊x⌋ + 1) else round x

/-- Python `round(x, 2)`. -/
def round2 (x : ℚ) : ℚ := (rhe (100 * x) : ℚ) / 100

/-- Python `round(x, 1)`. -/
def round1 (x : ℚ) : ℚ := (rhe (10 * x) : ℚ) / 10

theorem rhe_le (x : ℚ) : (rhe x : ℚ) ≤ x + 1/2 := by
  unfold rhe
  split
  · rename_i h
    have hfl : (⌊x⌋ : ℚ) = x - 1/2 := by linarith
    split <;> simp [hfl] <;> linarith
  · have := abs_sub_round x
    rw [abs_le] at this
    linarith [this.1, this.2]

theorem le_rhe (x : ℚ) : x - 1/2 ≤ (rhe x : ℚ) := by
  unfold rhe
  split
  · rename_i h
    have hfl : (⌊x⌋ : ℚ) = x - 1/2 := by linarith
    split <;> simp [hfl]
  · have := abs_sub_round x
    rw [abs_le] at this
    linarith [this.1, this.2]

theorem rhe_nonneg {x : ℚ} (hx : 0 ≤ x) : 0 ≤ rhe x := by
  have hf : (0 : ℤ) ≤ ⌊x⌋ := Int.le_floor.mpr (by exact_mod_cast hx)
  unfold rhe
  split
  · split
    · exact hf
    · omega
  · rw [round_eq]
    exact Int.le_floor.mpr (by push_cast; linarith)

theorem rhe_le_intCast {x : ℚ} {B : ℤ} (hx : x ≤ (B : ℚ)) : rhe x ≤ B := by
  unfold rhe
  split
  · rename_i ht
    have hfl : (⌊x⌋ : ℚ) = x - 1/2 := by linarith
    have hlt : (⌊x⌋ : ℚ) < (B : ℚ) := by linarith
    have hlt' : ⌊x⌋ < B := by exact_mod_cast hlt
    split
    · omega
    · omega
  · rw [round_eq]
    have : ⌊x + 1/2⌋ ≤ ⌊(B : ℚ) + 1/2⌋ := Int.floor_le_floor (by linarith)
    have hB : ⌊(B : ℚ) + 1/2⌋ = B := by
      rw [Int.floor_int_add]
      norm_num
    omega

theorem round2_nonneg {x : ℚ} (hx : 0 ≤ x) : 0 ≤ round2 x := by
  unfold round2
  have : (0 : ℤ) ≤ rhe (100 * x) := rhe_nonneg (by linarith)
  positivity

theorem round2_le (x : ℚ) : round2 x ≤ x + 1/200 := by
  unfold round2
  have := rhe_le (100 * x)
  linarith

theorem le_round2 (x : ℚ) : x - 1/200 ≤ round2 x := by
  unfold round2
  have := le_rhe (100 * x)
  linarith

theorem round2_hundredth (x : ℚ) : ∃ n : ℤ, round2 x = (n : ℚ) / 100 :=
  ⟨rhe (100 * x), rfl⟩

theorem round1_nonneg {x : ℚ} (hx : 0 ≤ x) : 0 ≤ round1 x := by
  unfold round1
  have : (0 : ℤ) ≤ rhe (10 * x) := rhe_nonneg (by linarith)
  positivity

theorem round1_le_hundred {x : ℚ} (hx : x ≤ 100) : round1 x ≤ 100 := by
  unfold round1
  have : rhe (10 * x) ≤ (1000 : ℤ) := rhe_le_intCast (by push_cast; linarith)
  have h2 : ((rhe (10 * x) : ℚ)) ≤ 1000 := by exact_mod_cast this
  linarith

theorem round1_tenth (x : ℚ) : ∃ n : ℤ, round1 x = (n : ℚ) / 10 :=
  ⟨rhe (10 * x), rfl⟩

/-- Device status: the only three values ever assigned by the source
(`generate_sample_devices` and `_update_device_values`). -/
inductive Status where
  | normal
  | warning
  | critical
deriving DecidableEq, Repr

/-- One entry of `self.sample_devices`.  `deviceId` is the numeric part of
the source's `DEVICE_%03d` id string; `name` drops the source's
title-casing of the type name; date-valued fields are `Int` seconds. -/
structure Device where
  deviceId : Nat
  name : String
  deviceType : String
  location : String
  status : Status
  value : ℚ
  unit : String
  health_score : ℚ
  efficiency_score : ℚ
  last_maintenance : Int
  installation_date : Int
  firmware : Nat × Nat × Nat
  timestamp : Int
deriving DecidableEq, Repr

/-- One entry of `self.sample_alerts`.  `deviceId` is the numeric part of
the `DEVICE_%03d` string; `ts` is the timestamp in `Int` seconds (the
source stores ISO strings whose lexicographic order matches time order). -/
structure Alert where
  id : String
  title : String
  message : String
  severity : String
  category : String
  deviceId : Nat
  ts : Int
  acknowledged : Bool
  resolved : Bool
deriving DecidableEq, Repr

/-- Hourly labels of the performance-trend block.  The source stores
`%H:%M` strings; we keep the hour number. -/
structure PerfData where
  labels : List Nat
  health_scores : List ℚ
  efficiency_scores : List ℚ
deriving DecidableEq, Repr

/-- The dashboard aggregate snapshot built by `_fetch_dashboard_data`'s
`return { ... }` dict (success path).  `statusNormal/Warning/Critical`
are the nested `status_distribution` entries. -/
structure DashData where
  timestamp : Int
  system_health : ℚ
  active_devices : Nat
  total_devices : Nat
  warning_devices : Nat
  critical_devices : Nat
  efficiency : ℚ
  energy_usage : ℚ
  performance_data : PerfData
  statusNormal : Nat
  statusWarning : Nat
  statusCritical : Nat
  uptime_percent : ℚ
  response_time_ms : ℚ
deriving DecidableEq, Repr

/-- What `get_dashboard_data` returns and caches: either the aggregate
dict or the error-shaped dict built in `_fetch_dashboard_data`'s
`except` branch. -/
inductive DashPayload where
  | ok (d : DashData)
  | err (msg : String) (timestamp : Int)
deriving DecidableEq, Repr

/-- The mutable in-memory state of `EnhancedDigitalTwinApp`:
`self.sample_devices`, `self.sample_alerts`, `self.data_cache`
(its single key `dashboard`), `self.last_cache_update`. -/
structure AppState where
  devices : List Device
  alerts : List Alert
  cache : Option DashPayload
  lastCacheUpdate : Int
deriving DecidableEq, Repr

/-- `self.cache_ttl = timedelta(minutes=2)`, in seconds. -/
def ttl : Int := 120

/-- Oracle draws consumed by `_update_device_values` for one device:
`rv` is the `np.random.uniform(-0.1, 0.1)` draw, `rs` the
`np.random.random()` status-change draw, `ru` the uniform draw of the
weighted status choice (`p=[0.7, 0.25, 0.05]` via inverse CDF), and
`rh` the unit draw of the health-score resample. -/
structure DevRand where
  rv : ℚ
  rs : ℚ
  ru : ℚ
  rh : ℚ

/-- Body of the `for device in self.sample_devices` loop of
`_update_device_values`: jitter the value by `±10%` (floored at 0,
rounded to 2 decimals), refresh the timestamp, and with probability
0.05 resample the status (weights 0.70/0.25/0.05) together with a
health score drawn from the band of the new status. -/
def resampleHealth (st : Status) (rh : ℚ) : ℚ :=
  match st with
  | .normal => 8/10 + rh * (2/10)
  | .warning => 1/2 + rh * (3/10)
  | .critical => 1/10 + rh * (4/10)

def updateDevice (now : Int) (o : DevRand) (d : Device) : Device :=
  let base := { d with value := round2 (max 0 (d.value + o.rv * d.value)), timestamp := now }
  if o.rs < 1/20 then
    let st := if o.ru < 7/10 then Status.normal
              else if o.ru < 19/20 then Status.warning
              else Status.critical
    { base with status := st, health_score := resampleHealth st o.rh }
  else base

/-- Index-threading recursion underlying `update_device_values` (the
source mutates each list entry in place; we rebuild the list, handing
device `i` the `i`-th oracle record). -/
def updateDevicesGo (now : Int) (g : Nat → DevRand) : Nat → List Device → List Device
  | _, [] => []
  | i, d :: ds => updateDevice now (g i) d :: updateDevicesGo now g (i + 1) ds

/-- `_update_device_values`. -/
def update_device_values (now : Int) (g : Nat → DevRand) (ds : List Device) : List Device :=
  updateDevicesGo now g 0 ds

/-- `get_devices_data`: update every device value, return the full
mutated list (which is also the new `self.sample_devices`). -/
def get_devices_data (now : Int) (g : Nat → DevRand) (s : AppState) : List Device × AppState :=
  let ds := update_device_values now g s.devices
  (ds, { s with devices := ds })

/-- Oracle draws consumed by `generate_sample_devices` for one device:
uniform index draws for type/location, `sr` the `np.random.random()`
status draw, `rh`/`rv`/`re` the unit draws behind the
`np.random.uniform` calls for health, value and efficiency, and the
integer draws behind `np.random.randint` for dates and firmware. -/
structure GenRand where
  typeIdx : Nat
  locIdx : Nat
  sr : ℚ
  rh : ℚ
  rv : ℚ
  re : ℚ
  maintDays : Nat
  instDays : Nat
  fw1 : Nat
  fw2 : Nat
  fw3 : Nat

def device_types : List String :=
  ["temperature_sensor", "pressure_sensor", "vibration_sensor",
   "humidity_sensor", "flow_meter"]

def locations : List String :=
  ["Production Line 1", "Production Line 2", "Quality Control",
   "Warehouse A", "Warehouse B", "Maintenance Shop"]

/-- The `status_rand` cascade of `generate_sample_devices`:
`> 0.15 → normal`, `> 0.05 → warning`, else `critical`, pairing each
status with a health score uniform in its band. -/
def statusAndHealth (sr rh : ℚ) : Status × ℚ :=
  if 3/20 < sr then (.normal, 8/10 + rh * (2/10))
  else if 1/20 < sr then (.warning, 1/2 + rh * (3/10))
  else (.critical, 1/10 + rh * (4/10))

/-- Per-type value range and unit of `generate_sample_devices`. -/
def valueRangeUnit (t : String) : ℚ × ℚ × String :=
  if t = "temperature_sensor" then (18, 35, "°C")
  else if t = "pressure_sensor" then (900, 1100, "hPa")
  else if t = "vibration_sensor" then (1/10, 1/2, "mm/s")
  else if t = "humidity_sensor" then (35, 75, "%RH")
  else (10, 50, "L/min")

/-- Loop body of `generate_sample_devices` for index `i` (0-based).
`np.random.choice` over a list of strings is a uniform pick, modelled
by an oracle index mod the list length; `np.random.randint(a, b)` is
modelled as `a + draw % (b - a)`. -/
def generateSampleDevice (now : Int) (i : Nat) (o : GenRand) : Device :=
  let t := device_types.getD (o.typeIdx % device_types.length) "flow_meter"
  let sh := statusAndHealth o.sr o.rh
  let vru := valueRangeUnit t
  { deviceId := i + 1
    name := t ++ " " ++ toString (i + 1)
    deviceType := t
    location := locations.getD (o.locIdx % locations.length) ""
    status := sh.1
    value := round2 (vru.1 + o.rv * (vru.2.1 - vru.1))
    unit := vru.2.2
    health_score := sh.2
    efficiency_score := 7/10 + o.re * (3/10)
    last_maintenance := now - 86400 * ((1 + o.maintDays % 89 : Nat) : Int)
    installation_date := now - 86400 * ((100 + o.instDays % 900 : Nat) : Int)
    firmware := (1 + o.fw1 % 4, o.fw2 % 9, o.fw3 % 9)
    timestamp := now }

/-- `generate_sample_devices`: the 20 startup devices. -/
def generate_sample_devices (now : Int) (g : Nat → GenRand) : List Device :=
  (List.range 20).map (fun i => generateSampleDevice now i (g i))

/-- Newest-first comparison on alerts (the `key=lambda x: x['timestamp'],
reverse=True` order). -/
def tsDesc (a b : Alert) : Prop := b.ts ≤ a.ts

instance : DecidableRel tsDesc := fun a b => inferInstanceAs (Decidable (b.ts ≤ a.ts))

instance : IsTotal Alert tsDesc := ⟨fun a b => le_total b.ts a.ts⟩

instance : IsTrans Alert tsDesc := ⟨fun _ _ _ h1 h2 => le_trans h2 h1⟩

/-- The alert list is sorted by timestamp descending (newest first). -/
def SortedDesc (l : List Alert) : Prop := List.Pairwise tsDesc l

instance : DecidablePred SortedDesc := fun l =>
  inferInstanceAs (Decidable (List.Pairwise tsDesc l))

/-- The five dict templates of `generate_sample_alerts`:
(title, message, severity, category). -/
def sample_alert_templates : List (String × String × String × String) :=
  [("High Temperature Alert", "Temperature sensor reading above normal threshold",
    "warning", "environmental"),
   ("Pressure Anomaly Detected", "Unusual pressure readings detected on production line",
    "critical", "safety"),
   ("Vibration Level Elevated", "Machine vibration levels exceeding normal parameters",
    "warning", "maintenance"),
   ("Device Communication Lost", "Lost communication with sensor device",
    "critical", "connectivity"),
   ("Efficiency Drop Detected", "System efficiency has dropped below optimal levels",
    "info", "performance")]

/-- Oracle draws consumed by `generate_sample_alerts` for one alert:
`aid` the `uuid4` string, `tplIdx` the uniform template pick (the
source's `np.random.choice` over a 1-D object array of dicts), `did`
and `mins` the `np.random.randint` draws, `ack`/`resB` the boolean
picks and `rr` the `np.random.random()` gate of the resolved flag. -/
structure AlertGenRand where
  aid : String
  tplIdx : Nat
  did : Nat
  mins : Nat
  ack : Bool
  rr : ℚ
  resB : Bool

/-- Loop body of `generate_sample_alerts`. -/
def generateSampleAlert (now : Int) (o : AlertGenRand) : Alert :=
  let t := sample_alert_templates.getD (o.tplIdx % sample_alert_templates.length)
    ("", "", "", "")
  let did := 1 + o.did % 20
  { id := o.aid
    title := t.1
    message := t.2.1 ++ " - DEVICE_" ++ toString did
    severity := t.2.2.1
    category := t.2.2.2
    deviceId := did
    ts := now - 60 * ((1 + o.mins % 1439 : Nat) : Int)
    acknowledged := o.ack
    resolved := if 7/10 < o.rr then o.resB else false }

/-- `generate_sample_alerts`: 15 startup alerts, sorted newest first.
The source uses Python's stable `list.sort`; we use the (stable)
insertion sort, which produces the same sorted order. -/
def generate_sample_alerts (now : Int) (g : Nat → AlertGenRand) : List Alert :=
  List.insertionSort tsDesc ((List.range 15).map (fun i => generateSampleAlert now (g i)))

/-- The four (title, severity) tuples of `_add_random_alert`. -/
def alert_templates : List (String × String) :=
  [("Sensor Reading Anomaly", "warning"),
   ("System Performance Alert", "info"),
   ("Connection Timeout", "critical"),
   ("Maintenance Required", "warning")]

/-- `np.random.choice` applied to a list of pairs, as in
`title, severity = np.random.choice(alert_templates)`.
`numpy.random.choice` requires its argument `a` to be one-dimensional;
`np.asarray` of a list of 2-tuples has shape `(n, 2)`, so the call
raises `ValueError` before any alert is built. -/
def npRandomChoicePairs (_a : List (String × String)) : Except String (String × String) :=
  Except.error "ValueError: a must be 1-dimensional"

/-- The new alert dict literal of `_add_random_alert` (category
`system`, unacknowledged, unresolved, timestamped now). -/
def mkNewAlert (now : Int) (newId : String) (did : Nat) (title severity : String) : Alert :=
  { id := newId
    title := title
    message := title ++ " detected on DEVICE_" ++ toString did
    severity := severity
    category := "system"
    deviceId := did
    ts := now
    acknowledged := false
    resolved := false }

/-- Lines 466–469 of the source: `self.sample_alerts.insert(0, new_alert)`
followed by `self.sample_alerts = self.sample_alerts[:50]`. -/
def prependAndCap (a : Alert) (l : List Alert) : List Alert :=
  (a :: l).take 50

/-- `_add_random_alert`: pick a (title, severity) template, build the new
alert, prepend it and cap the list at 50.  The template pick is the
failing `np.random.choice` call above, so the whole operation is
`Except`-valued. -/
def add_random_alert (now : Int) (newId : String) (did : Nat) (l : List Alert) :
    Except String (List Alert) :=
  (npRandomChoicePairs alert_templates).map fun t =>
    prependAndCap (mkNewAlert now newId did t.1 t.2) l

/-- `get_alerts_data(limit)`: with the `np.random.random() < 0.1` draw
`r`, occasionally add a new alert, then return the first `limit`
alerts.  The pair returned is (HTTP result, new `self.sample_alerts`). -/
def get_alerts_data (r : ℚ) (limit : Nat) (now : Int) (newId : String) (did : Nat)
    (s : AppState) : Except String (List Alert × AppState) :=
  if r < 1/10 then
    (add_random_alert now newId did s.alerts).map fun l =>
      (l.take limit, { s with alerts := l })
  else
    Except.ok (s.alerts.take limit, s)

/-- The shift-dependent baseline cascade of `_generate_performance_trends`:
`8 <= hour <= 16 → 90`, `16 <= hour <= 24 or 0 <= hour <= 8 → 85`,
else `80`. -/
def baseHealth (hour : Nat) : ℚ :=
  if 8 ≤ hour ∧ hour ≤ 16 then 90
  else if (16 ≤ hour ∧ hour ≤ 24) ∨ hour ≤ 8 then 85
  else 80

/-- `_generate_performance_trends`: 24 hourly points ending at `nowHour`.
Point `i` has hour `(now - timedelta(hours=23-i)).hour`, i.e.
`(nowHour + i + 1) % 24`.  `nh i`/`ne i` are the `uniform(-5, 5)` and
`uniform(-8, 8)` noise draws; labels keep the hour number in place of
the `%H:%M` string. -/
def generate_performance_trends (nowHour : Nat) (nh ne : Nat → ℚ) : PerfData :=
  { labels := (List.range 24).map (fun i => (nowHour + i + 1) % 24)
    health_scores := (List.range 24).map (fun i =>
      round1 (max 0 (min 100 (baseHealth ((nowHour + i + 1) % 24) + nh i))))
    efficiency_scores := (List.range 24).map (fun i =>
      round1 (max 0 (min 100 ((baseHealth ((nowHour + i + 1) % 24) - 5) + ne i)))) }

/-- Oracle draws consumed by `_fetch_dashboard_data`: the per-device
update oracles `g`, `sinHour` the value of `sin(2*pi*hour/24)` at the
current hour, `noiseE` the `uniform(-50, 50)` energy noise, `nh`/`ne`
the trend noises, and the unit draws behind `uptime_percent`
(`uniform(98.5, 99.9)`) and `response_time_ms` (`uniform(50, 200)`). -/
structure DashRand where
  g : Nat → DevRand
  sinHour : ℚ
  noiseE : ℚ
  nh : Nat → ℚ
  ne : Nat → ℚ
  up : ℚ
  resp : ℚ

/-- `_fetch_dashboard_data`.  The `try` body never raises by itself; the
abstract `failure` oracle stands for the `except Exception` branch,
which returns the `{error, timestamp}` dict instead of the aggregate
snapshot.  On the success path the device list is mutated first
(`self._update_device_values()`); `nowHour` models
`datetime.now().hour`. -/
def fetch_dashboard_data (now : Int) (nowHour : Nat) (failure : Option String)
    (o : DashRand) (s : AppState) : DashPayload × AppState :=
  match failure with
  | some e => (.err e now, s)
  | none =>
    let devices := update_device_values now o.g s.devices
    let active := (devices.filter (fun d => d.status == Status.normal)).length
    let warning := (devices.filter (fun d => d.status == Status.warning)).length
    let critical := (devices.filter (fun d => d.status == Status.critical)).length
    let healthScores := devices.map (fun d => d.health_score)
    let efficiencyScores := devices.map (fun d => d.efficiency_score)
    let avgHealth := if healthScores.isEmpty then 0
      else (healthScores.sum / healthScores.length) * 100
    let avgEfficiency := if efficiencyScores.isEmpty then 0
      else (efficiencyScores.sum / efficiencyScores.length) * 100
    let energy := 1200 + o.sinHour * 300 + o.noiseE
    (.ok
      { timestamp := now
        system_health := round1 avgHealth
        active_devices := active
        total_devices := devices.length
        warning_devices := warning
        critical_devices := critical
        efficiency := round1 avgEfficiency
        energy_usage := round1 energy
        performance_data := generate_performance_trends nowHour o.nh o.ne
        statusNormal := active
        statusWarning := warning
        statusCritical := critical
        uptime_percent := round2 (985/10 + o.up * (7/5))
        response_time_ms := round1 (50 + o.resp * 150) },
     { s with devices := devices })

/-- `get_dashboard_data`: recompute iff
`(now - self.last_cache_update) > self.cache_ttl` or the cache entry is
missing, storing the fresh payload and stamping the cache; otherwise
return the cached payload untouched. -/
def get_dashboard_data (now : Int) (nowHour : Nat) (failure : Option String)
    (o : DashRand) (s : AppState) : DashPayload × AppState :=
  match s.cache with
  | none =>
    let r := fetch_dashboard_data now nowHour failure o s
    (r.1, { r.2 with cache := some r.1, lastCacheUpdate := now })
  | some p =>
    if ttl < now - s.lastCacheUpdate then
      let r := fetch_dashboard_data now nowHour failure o s
      (r.1, { r.2 with cache := some r.1, lastCacheUpdate := now })
    else
      (p, s)

/-- One sensor series of the analytics payload. -/
structure Series where
  labels : List Nat
  values : List ℚ
  unit : String
  thresholdMin : ℚ
  thresholdMax : ℚ
deriving DecidableEq, Repr

/-- Oracle draws consumed by `_generate_sensor_pattern` at point `i`:
`psin i` the value of `sin(2*pi*i*frequency/24)`, `pnoise i` the
`normal(0, amplitude*0.1)` draw, `pspike i` the vibration spike gate
and `pmag i` the `exponential(0.1)` spike magnitude. -/
structure PatternRand where
  psin : Nat → ℚ
  pnoise : Nat → ℚ
  pspike : Nat → ℚ
  pmag : Nat → ℚ

/-- `_generate_sensor_pattern`: 24 points of
`base + amplitude*sin + noise` with the per-kind special cases
(vibration spikes, working-hours power boost, floors and the humidity
clamp), each rounded to 2 decimals.  `frequency` only occurs inside the
sine argument, which the `psin` oracle carries. -/
def generate_sensor_pattern (sensor_type : String) (base_value amplitude _frequency : ℚ)
    (o : PatternRand) : List ℚ :=
  (List.range 24).map fun i =>
    let daily0 := amplitude * o.psin i
    let noise0 := o.pnoise i
    let noise1 := if sensor_type = "vibration" ∧ o.pspike i < 1/20
      then noise0 + o.pmag i else noise0
    let daily1 := if sensor_type = "power" ∧ 8 ≤ i ∧ i ≤ 18
      then daily0 + amplitude * (3/10) else daily0
    let v := base_value + daily1 + noise1
    let v1 := if sensor_type = "vibration" ∨ sensor_type = "power" then max 0 v
      else if sensor_type = "humidity" then max 0 (min 100 v)
      else v
    round2 v1

/-- `get_analytics_data`: the five fixed sensor series, sharing one
24-point label list; a pure function of the clock and the oracles that
leaves the store state untouched. -/
def get_analytics_data (nowHour : Nat) (o : String → PatternRand) (s : AppState) :
    List (String × Series) × AppState :=
  let timestamps := (List.range 24).map (fun k => (nowHour + k + 1) % 24)
  ([("temperature",
     { labels := timestamps
       values := generate_sensor_pattern "temperature" 22 3 (1/10) (o "temperature")
       unit := "°C", thresholdMin := 18, thresholdMax := 28 }),
    ("pressure",
     { labels := timestamps
       values := generate_sensor_pattern "pressure" 1013 20 (1/20) (o "pressure")
       unit := "hPa", thresholdMin := 980, thresholdMax := 1040 }),
    ("vibration",
     { labels := timestamps
       values := generate_sensor_pattern "vibration" (1/4) (1/10) (1/5) (o "vibration")
       unit := "mm/s", thresholdMin := 0, thresholdMax := 1/2 }),
    ("power",
     { labels := timestamps
       values := generate_sensor_pattern "power" 1200 300 (2/25) (o "power")
       unit := "W", thresholdMin := 800, thresholdMax := 1800 }),
    ("humidity",
     { labels := timestamps
       values := generate_sensor_pattern "humidity" 55 15 (3/25) (o "humidity")
       unit := "%RH", thresholdMin := 40, thresholdMax := 70 })],
   s)

theorem updateDevicesGo_length (now : Int) (g : Nat → DevRand) :
    ∀ (i : Nat) (ds : List Device), (updateDevicesGo now g i ds).length = ds.length := by
  intro i ds
  induction ds generalizing i with
  | nil => rfl
  | cons d ds ih => simp [updateDevicesGo, ih]

theorem updateDevicesGo_get (now : Int) (g : Nat → DevRand) :
    ∀ (ds : List Device) (i j : Nat) (h : j < ds.length)
      (h' : j < (updateDevicesGo now g i ds).length),
      (updateDevicesGo now g i ds).get ⟨j, h'⟩ =
        updateDevice now (g (i + j)) (ds.get ⟨j, h⟩) := by
  intro ds
  induction ds with
  | nil => intro i j h; simp at h
  | cons d ds ih =>
    intro i j h h'
    cases j with
    | zero => simp [updateDevicesGo]
    | succ j =>
      have hj : j < ds.length := by simpa using h
      have hj' : j < (updateDevicesGo now g (i + 1) ds).length := by
        rw [updateDevicesGo_length]; exact hj
      simpa [updateDevicesGo, Nat.add_assoc, Nat.add_comm 1 j] using
        ih (i + 1) j hj hj'

theorem updateDevicesGo_mem (now : Int) (g : Nat → DevRand) :
    ∀ (i : Nat) (ds : List Device) (d' : Device), d' ∈ updateDevicesGo now g i ds →
      ∃ j, ∃ d ∈ ds, d' = updateDevice now (g j) d := by
  intro i ds
  induction ds generalizing i with
  | nil => intro d' h; simp [updateDevicesGo] at h
  | cons d ds ih =>
    intro d' h
    rcases (by simpa [updateDevicesGo] using h) with h1 | h2
    · exact ⟨i, d, by simp, h1⟩
    · rcases ih (i + 1) d' h2 with ⟨j, e, he, rfl⟩
      exact ⟨j, e, by simp [he], rfl⟩

/-- The banding policy: health score inside the band dictated by the
status (`normal → [0.8, 1]`, `warning → [0.5, 0.8]`,
`critical → [0.1, 0.5]`). -/
def InBand (d : Device) : Prop :=
  match d.status with
  | .normal => 8/10 ≤ d.health_score ∧ d.health_score ≤ 1
  | .warning => 1/2 ≤ d.health_score ∧ d.health_score ≤ 8/10
  | .critical => 1/10 ≤ d.health_score ∧ d.health_score ≤ 1/2

instance : DecidablePred InBand := fun d => by
  unfold InBand
  cases d.status <;> exact inferInstanceAs (Decidable (_ ∧ _))

theorem statusAndHealth_inBand {sr rh : ℚ} (h0 : 0 ≤ rh) (h1 : rh ≤ 1) (d : Device)
    (hs : d.status = (statusAndHealth sr rh).1)
    (hh : d.health_score = (statusAndHealth sr rh).2) : InBand d := by
  unfold statusAndHealth at hs hh
  unfold InBand
  split_ifs at hs hh <;> simp_all <;> nlinarith

theorem updateDevice_inBand {now : Int} {o : DevRand} {d : Device}
    (h0 : 0 ≤ o.rh) (h1 : o.rh ≤ 1) (hd : InBand d) :
    InBand (updateDevice now o d) := by
  unfold updateDevice
  by_cases hrs : o.rs < 1/20
  · rw [if_pos hrs]
    by_cases h7 : o.ru < 7/10
    · simp only [if_pos h7]
      unfold InBand resampleHealth
      constructor <;> dsimp <;> nlinarith
    · by_cases h9 : o.ru < 19/20
      · simp only [if_neg h7, if_pos h9]
        unfold InBand resampleHealth
        constructor <;> dsimp <;> nlinarith
      · simp only [if_neg h7, if_neg h9]
        unfold InBand resampleHealth
        constructor <;> dsimp <;> nlinarith
  · rw [if_neg hrs]
    unfold InBand at hd ⊢
    exact hd

/-- C2: after initialization (`generate_sample_devices`) and after any
device-mutating read (`get_devices_data` or the dashboard recomputation
`_fetch_dashboard_data`), every device's status is one of
normal/warning/critical (the `Status` type) and its health score lies
in the band dictated by the status: `[0.8, 1]` for normal,
`[0.5, 0.8]` for warning, `[0.1, 0.5]` for critical. -/
theorem device_status_health_banding :
    (∀ (now : Int) (g : Nat → GenRand), (∀ i, 0 ≤ (g i).rh ∧ (g i).rh ≤ 1) →
      ∀ d ∈ generate_sample_devices now g, InBand d) ∧
    (∀ (now : Int) (g : Nat → DevRand) (s : AppState),
      (∀ i, 0 ≤ (g i).rh ∧ (g i).rh ≤ 1) → (∀ d ∈ s.devices, InBand d) →
      ∀ d ∈ (get_devices_data now g s).2.devices, InBand d) ∧
    (∀ (now : Int) (nowHour : Nat) (o : DashRand) (s : AppState),
      (∀ i, 0 ≤ (o.g i).rh ∧ (o.g i).rh ≤ 1) → (∀ d ∈ s.devices, InBand d) →
      ∀ d ∈ (fetch_dashboard_data now nowHour none o s).2.devices, InBand d) := by
  refine ⟨?_, ?_, ?_⟩
  · intro now g hg d hd
    rcases List.mem_map.mp hd with ⟨i, _, rfl⟩
    exact statusAndHealth_inBand (hg i).1 (hg i).2 _ rfl rfl
  · intro now g s hg hs d hd
    rcases updateDevicesGo_mem now g 0 s.devices d hd with ⟨j, d0, hd0, rfl⟩
    exact updateDevice_inBand (hg j).1 (hg j).2 (hs d0 hd0)
  · intro now nowHour o s hg hs d hd
    rcases updateDevicesGo_mem now o.g 0 s.devices d hd with ⟨j, d0, hd0, rfl⟩
    exact updateDevice_inBand (hg j).1 (hg j).2 (hs d0 hd0)

def genZero : GenRand := ⟨0, 0, 0, 0, 0, 0, 0, 0, 0, 0, 0⟩

/-- Witness for C2 at a concrete oracle: device 0 of the generated
sample set satisfies the banding invariant. -/
theorem device_status_health_banding_witness :
    InBand (generateSampleDevice 0 0 genZero) :=
  device_status_health_banding.1 0 (fun _ => genZero)
    (fun _ => ⟨le_refl 0, by show (0 : ℚ) ≤ 1; norm_num⟩)
    (generateSampleDevice 0 0 genZero)
    (List.mem_map.mpr ⟨0, List.mem_range.mpr (by norm_num), rfl⟩)

theorem updateDevice_value (now : Int) (o : DevRand) (d : Device) :
    (updateDevice now o d).value = round2 (max 0 (d.value + o.rv * d.value)) := by
  unfold updateDevice
  split <;> rfl

theorem updateDevice_timestamp (now : Int) (o : DevRand) (d : Device) :
    (updateDevice now o d).timestamp = now := by
  unfold updateDevice
  split <;> rfl

/-- C7: `get_devices_data` perturbs each device's value by at most ±10%
(up to the 0.005 quantization of rounding to 2 decimals), floors it at
0 — the result is always ≥ 0 and a whole number of hundredths — stamps
each device with the current time, and returns exactly the mutated
device list that it stores back; the operation is total. -/
theorem get_devices_jitter :
    ∀ (now : Int) (g : Nat → DevRand) (s : AppState),
      (∀ i, -(1/10) ≤ (g i).rv ∧ (g i).rv ≤ 1/10) →
      (∀ d ∈ s.devices, 0 ≤ d.value) →
      (get_devices_data now g s).1 = (get_devices_data now g s).2.devices ∧
      (get_devices_data now g s).1.length = s.devices.length ∧
      (∀ (j : Nat) (h : j < s.devices.length)
          (h' : j < (get_devices_data now g s).1.length),
        0 ≤ ((get_devices_data now g s).1.get ⟨j, h'⟩).value ∧
        (∃ n : ℤ, ((get_devices_data now g s).1.get ⟨j, h'⟩).value = (n : ℚ) / 100) ∧
        9/10 * (s.devices.get ⟨j, h⟩).value - 1/200 ≤
          ((get_devices_data now g s).1.get ⟨j, h'⟩).value ∧
        ((get_devices_data now g s).1.get ⟨j, h'⟩).value ≤
          11/10 * (s.devices.get ⟨j, h⟩).value + 1/200 ∧
        ((get_devices_data now g s).1.get ⟨j, h'⟩).timestamp = now) := by
  intro now g s hg hv
  refine ⟨rfl, updateDevicesGo_length now g 0 s.devices, ?_⟩
  intro j h h'
  have hget : (get_devices_data now g s).1.get ⟨j, h'⟩ =
      updateDevice now (g (0 + j)) (s.devices.get ⟨j, h⟩) :=
    updateDevicesGo_get now g s.devices 0 j h h'
  rw [hget]
  simp only [Nat.zero_add]
  have hv0 : 0 ≤ (s.devices.get ⟨j, h⟩).value := hv _ (s.devices.get_mem j h)
  have h1 := (hg j).1
  have h2 := (hg j).2
  have hmax : max 0 ((s.devices.get ⟨j, h⟩).value + (g j).rv * (s.devices.get ⟨j, h⟩).value) =
      (s.devices.get ⟨j, h⟩).value + (g j).rv * (s.devices.get ⟨j, h⟩).value :=
    max_eq_right (by nlinarith)
  refine ⟨?_, ?_, ?_, ?_, ?_⟩
  · rw [updateDevice_value]
    exact round2_nonneg (le_max_left 0 _)
  · rw [updateDevice_value]
    exact round2_hundredth _
  · rw [updateDevice_value, hmax]
    have := le_round2 ((s.devices.get ⟨j, h⟩).value + (g j).rv * (s.devices.get ⟨j, h⟩).value)
    nlinarith
  · rw [updateDevice_value, hmax]
    have := round2_le ((s.devices.get ⟨j, h⟩).value + (g j).rv * (s.devices.get ⟨j, h⟩).value)
    nlinarith
  · rw [updateDevice_timestamp]

def devG0 : Nat → DevRand := fun _ => ⟨0, 1, 0, 0⟩

def devOne : Device :=
  { deviceId := 1, name := "temperature_sensor 1", deviceType := "temperature_sensor"
    location := "Production Line 1", status := .normal, value := 25, unit := "°C"
    health_score := 9/10, efficiency_score := 9/10, last_maintenance := -86400
    installation_date := -8640000, firmware := (1, 0, 0), timestamp := 0 }

def exDevState : AppState := { devices := [devOne], alerts := [], cache := none, lastCacheUpdate := 0 }

/-- Witness for C7 at a concrete one-device store and a zero-jitter
oracle: the returned list is the stored list and has the same length. -/
theorem get_devices_jitter_witness :
    (get_devices_data 7 devG0 exDevState).1 = (get_devices_data 7 devG0 exDevState).2.devices ∧
    (get_devices_data 7 devG0 exDevState).1.length = exDevState.devices.length ∧
    0 ≤ ((get_devices_data 7 devG0 exDevState).1.getD 0 devOne).value := by
  have hhyp1 : ∀ i, -(1/10 : ℚ) ≤ (devG0 i).rv ∧ (devG0 i).rv ≤ 1/10 := by
    intro i
    constructor <;> norm_num [devG0]
  have hhyp2 : ∀ d ∈ exDevState.devices, (0 : ℚ) ≤ d.value := by
    intro d hd
    simp only [exDevState, List.mem_singleton] at hd
    subst hd
    norm_num [devOne]
  have hmain := get_devices_jitter 7 devG0 exDevState hhyp1 hhyp2
  have hlen : 0 < (get_devices_data 7 devG0 exDevState).1.length := by
    rw [hmain.2.1]
    norm_num [exDevState]
  refine ⟨hmain.1, hmain.2.1, ?_⟩
  rw [List.getD_eq_getElem _ _ hlen]
  exact (hmain.2.2 0 (by norm_num [exDevState]) hlen).1

def exAlert : Alert :=
  { id := "a-1", title := "High Temperature Alert"
    message := "Temperature sensor reading above normal threshold - DEVICE_001"
    severity := "warning", category := "environmental", deviceId := 1, ts := 100
    acknowledged := false, resolved := false }

def exAlert2 : Alert := { exAlert with id := "a-2", ts := 50 }

def exAlertState : AppState :=
  { devices := [], alerts := [exAlert], cache := none, lastCacheUpdate := 0 }

/-- C4 (code-bug evidence): whenever the `np.random.random() < 0.1` draw
fires, `get_alerts_data` raises `ValueError` out of
`title, severity = np.random.choice(alert_templates)` — `alert_templates`
is a list of pairs, which numpy rejects as non-1-dimensional — so no
alert is ever synthesized or prepended, contradicting the documented
behavior `Add a random new alert`. -/
theorem get_alerts_add_random_alert_raises :
    get_alerts_data (1/20) 10 0 "id-1" 1 exAlertState =
      Except.error "ValueError: a must be 1-dimensional" := by
  unfold get_alerts_data
  rw [if_pos (by norm_num : (1/20 : ℚ) < 1/10)]
  rfl

/-- C3: the alert collection never grows beyond 50 entries through
`get_alerts_data` (any successful call preserves the bound), the
prepend-and-truncate step of `_add_random_alert` always returns at most
50 alerts, and the entries it cuts off are the oldest ones: on a
newest-first list, everything dropped beyond the cap is no newer than
anything kept. -/
theorem alerts_capped_at_50 :
    (∀ (r : ℚ) (limit : Nat) (now : Int) (newId : String) (did : Nat) (s : AppState)
        (res : List Alert) (s' : AppState),
      s.alerts.length ≤ 50 →
      get_alerts_data r limit now newId did s = Except.ok (res, s') →
      s'.alerts.length ≤ 50) ∧
    (∀ (a : Alert) (l : List Alert), (prependAndCap a l).length ≤ 50) ∧
    (∀ (a : Alert) (l : List Alert), SortedDesc (a :: l) →
      ∀ x ∈ (a :: l).drop 50, ∀ y ∈ prependAndCap a l, x.ts ≤ y.ts) := by
  refine ⟨?_, ?_, ?_⟩
  · intro r limit now newId did s res s' hlen heq
    unfold get_alerts_data at heq
    by_cases hr : r < 1/10
    · rw [if_pos hr] at heq
      simp [add_random_alert, npRandomChoicePairs, Except.map] at heq
    · rw [if_neg hr] at heq
      simp only [Except.ok.injEq, Prod.mk.injEq] at heq
      rw [← heq.2]
      exact hlen
  · intro a l
    simp only [prependAndCap, List.length_take]
    exact min_le_left _ _
  · intro a l hs x hx y hy
    have h2 : ((a :: l).take 50 ++ (a :: l).drop 50).Pairwise tsDesc := by
      rw [List.take_append_drop]
      exact hs
    rcases List.pairwise_append.mp h2 with ⟨_, _, hcross⟩
    exact hcross y hy x hx

/-- Witness for C3: a concrete one-alert store stays within the cap
after a (non-mutating draw) `get_alerts_data` call, and the
prepend-and-truncate step respects the cap on a concrete input. -/
theorem alerts_capped_at_50_witness :
    exAlertState.alerts.length ≤ 50 ∧ (prependAndCap exAlert2 [exAlert]).length ≤ 50 := by
  have heq : get_alerts_data (1/2) 10 0 "w" 1 exAlertState =
      Except.ok (exAlertState.alerts.take 10, exAlertState) := by
    unfold get_alerts_data
    rw [if_neg (by norm_num : ¬((1/2 : ℚ) < 1/10))]
  exact ⟨alerts_capped_at_50.1 (1/2) 10 0 "w" 1 exAlertState
      (exAlertState.alerts.take 10) exAlertState (by norm_num [exAlertState]) heq,
    alerts_capped_at_50.2.1 exAlert2 [exAlert]⟩

/-- C5: the alert collection is sorted newest-first after every mutation:
the startup set `generate_sample_alerts` is sorted by construction, and
the prepend-and-truncate step preserves the order whenever the incoming
alert is at least as recent as every stored one (the new alert is
stamped `now`, stored alerts lie in the past). -/
theorem alerts_sorted_newest_first :
    (∀ (now : Int) (g : Nat → AlertGenRand), SortedDesc (generate_sample_alerts now g)) ∧
    (∀ (a : Alert) (l : List Alert), SortedDesc l → (∀ b ∈ l, b.ts ≤ a.ts) →
      SortedDesc (prependAndCap a l)) := by
  constructor
  · intro now g
    exact List.sorted_insertionSort tsDesc _
  · intro a l hs ha
    have hcons : List.Pairwise tsDesc (a :: l) :=
      List.Pairwise.cons (fun b hb => ha b hb) hs
    exact List.Pairwise.sublist ((a :: l).take_sublist 50) hcons

/-- Witness for C5: prepending a strictly newer concrete alert to a
concrete singleton list keeps the newest-first order. -/
theorem alerts_sorted_newest_first_witness :
    SortedDesc (prependAndCap exAlert [exAlert2]) :=
  alerts_sorted_newest_first.2 exAlert [exAlert2] (by decide) (by decide)

/-- Supporting lemma for the limit handling of `get_alerts_data(limit)`:
whenever the call succeeds it returns exactly the first `limit` entries
of the (possibly just-mutated) alert collection — the empty list for
`limit = 0`, the whole collection when `limit` is at least its size —
and with the non-mutating draw the call always succeeds; the slicing
step itself introduces no failure. -/
theorem get_alerts_limit_semantics :
    ∀ (r : ℚ) (limit : Nat) (now : Int) (newId : String) (did : Nat) (s : AppState),
      (1/10 ≤ r → get_alerts_data r limit now newId did s =
        Except.ok (s.alerts.take limit, s)) ∧
      (∀ (res : List Alert) (s' : AppState),
        get_alerts_data r limit now newId did s = Except.ok (res, s') →
        res = s'.alerts.take limit ∧
        res.length = min limit s'.alerts.length ∧
        (limit = 0 → res = []) ∧
        (s'.alerts.length ≤ limit → res = s'.alerts)) := by
  intro r limit now newId did s
  constructor
  · intro hr
    unfold get_alerts_data
    rw [if_neg (not_lt.mpr hr)]
  · intro res s' heq
    unfold get_alerts_data at heq
    by_cases hr : r < 1/10
    · rw [if_pos hr] at heq
      simp [add_random_alert, npRandomChoicePairs, Except.map] at heq
    · rw [if_neg hr] at heq
      simp only [Except.ok.injEq, Prod.mk.injEq] at heq
      rcases heq with ⟨hres, hs'⟩
      subst hs'
      subst hres
      refine ⟨rfl, List.length_take _ _, ?_, ?_⟩
      · intro h0
        subst h0
        exact List.take_zero _
      · intro hle
        exact List.take_of_length_le hle

/-- Instance of the limit-handling lemma: on a concrete one-alert store
with `limit = 0` and a non-mutating draw, the call succeeds with the
empty list. -/
theorem get_alerts_limit_semantics_witness :
    get_alerts_data (1/2) 0 0 "w" 1 exAlertState = Except.ok ([], exAlertState) := by
  have h := (get_alerts_limit_semantics (1/2) 0 0 "w" 1 exAlertState).1 (by norm_num)
  simpa using h

/-- C6 (code-bug evidence): the limit handling of `get_alerts_data`
raises on the program: whenever the `np.random.random() < 0.1` draw
fires, the call raises the `ValueError` of the tuple-list
`np.random.choice` for every `limit` — including `limit = 0` and a
`limit` beyond the collection size, exactly the cases where the claim
promises an error-free first-`limit` slice. -/
theorem get_alerts_limit_raises_on_add_draw :
    get_alerts_data (1/20) 0 3 "w-2" 2 exAlertState =
      Except.error "ValueError: a must be 1-dimensional" ∧
    get_alerts_data (1/20) 99 3 "w-2" 2 exAlertState =
      Except.error "ValueError: a must be 1-dimensional" := by
  constructor <;>
    · unfold get_alerts_data
      rw [if_pos (by norm_num : (1/20 : ℚ) < 1/10)]
      rfl

def zeroDashRand : DashRand :=
  { g := fun _ => ⟨0, 1, 0, 0⟩, sinHour := 0, noiseE := 0
    nh := fun _ => 0, ne := fun _ => 0, up := 0, resp := 0 }

def cexC1State : AppState :=
  { devices := [], alerts := [], cache := some (DashPayload.err "cached" 0)
    lastCacheUpdate := 0 }

/-- C1 (amended): the cached dashboard payload is returned unchanged —
same payload, state untouched — if and only if a cache entry exists and
its age `now - computed_at` is at most the TTL (the source recomputes
only on `(now - last_cache_update) > cache_ttl`); otherwise the payload
is recomputed exactly once and the fresh payload replaces the cache
entry, with the cache timestamp set to `now`. -/
theorem dashboard_cache_ttl :
    ∀ (now : Int) (nowHour : Nat) (f : Option String) (o : DashRand) (s : AppState),
      (∀ p, s.cache = some p → now - s.lastCacheUpdate ≤ ttl →
        get_dashboard_data now nowHour f o s = (p, s)) ∧
      ((s.cache = none ∨ ttl < now - s.lastCacheUpdate) →
        get_dashboard_data now nowHour f o s =
          ((fetch_dashboard_data now nowHour f o s).1,
           { (fetch_dashboard_data now nowHour f o s).2 with
               cache := some (fetch_dashboard_data now nowHour f o s).1
               lastCacheUpdate := now })) := by
  intro now nowHour f o s
  cases hc : s.cache with
  | none =>
    constructor
    · intro p hp
      exact absurd hp (by simp)
    · intro _
      unfold get_dashboard_data
      rw [hc]
  | some p =>
    constructor
    · intro q hq hle
      injection hq with hq
      subst hq
      unfold get_dashboard_data
      rw [hc]
      simp only [if_neg (not_lt.mpr hle)]
    · intro h
      rcases h with h | h
      · exact absurd h (by simp)
      · unfold get_dashboard_data
        rw [hc]
        simp only [if_pos h]

/-- Witness for the amended C1: a concrete store whose cache is exactly
TTL old still serves the cached payload with the state untouched. -/
theorem dashboard_cache_ttl_witness :
    get_dashboard_data 120 0 none zeroDashRand cexC1State =
      (DashPayload.err "cached" 0, cexC1State) :=
  (dashboard_cache_ttl 120 0 none zeroDashRand cexC1State).1
    (DashPayload.err "cached" 0) rfl (by decide)

/-- C1 (counterexample to the claim as stated): with the cache age
exactly equal to the TTL — not strictly below it — the source still
returns the cached payload unchanged and does not touch the cache
entry, although recomputation would have produced a different payload;
the claim as stated demands a recomputation here. -/
theorem dashboard_cache_ttl_boundary_cex :
    ¬(120 - cexC1State.lastCacheUpdate < ttl) ∧
    get_dashboard_data 120 0 none zeroDashRand cexC1State =
      (DashPayload.err "cached" 0, cexC1State) ∧
    (fetch_dashboard_data 120 0 none zeroDashRand cexC1State).1 ≠
      DashPayload.err "cached" 0 := by
  refine ⟨by decide, ?_, ?_⟩
  · unfold get_dashboard_data
    rw [show cexC1State.cache = some (DashPayload.err "cached" 0) from rfl]
    simp only [if_neg (by decide : ¬(ttl < 120 - cexC1State.lastCacheUpdate))]
  · intro h
    exact DashPayload.noConfusion h

/-- C9: when the aggregate computation fails, `get_dashboard_data` stores
the error-shaped `{error, timestamp}` payload in the cache and stamps
the cache timestamp, so every subsequent call within the TTL window
returns that same error payload — regardless of the later call's
failure state or oracles — instead of retrying the computation. -/
theorem dashboard_error_payload_cached :
    ∀ (now : Int) (nowHour : Nat) (e : String) (o : DashRand) (s : AppState),
      (s.cache = none ∨ ttl < now - s.lastCacheUpdate) →
      get_dashboard_data now nowHour (some e) o s =
        (DashPayload.err e now,
         { s with cache := some (DashPayload.err e now), lastCacheUpdate := now }) ∧
      (∀ (now2 : Int) (nowHour2 : Nat) (f2 : Option String) (o2 : DashRand),
        now2 - now < ttl →
        get_dashboard_data now2 nowHour2 f2 o2
            { s with cache := some (DashPayload.err e now), lastCacheUpdate := now } =
          (DashPayload.err e now,
           { s with cache := some (DashPayload.err e now), lastCacheUpdate := now })) := by
  intro now nowHour e o s hstale
  constructor
  · cases hc : s.cache with
    | none =>
      unfold get_dashboard_data
      rw [hc]
      rfl
    | some p =>
      have hlt : ttl < now - s.lastCacheUpdate := by
        rcases hstale with h | h
        · rw [hc] at h
          exact absurd h (by simp)
        · exact h
      unfold get_dashboard_data
      rw [hc]
      simp only [if_pos hlt]
      rfl
  · intro now2 nowHour2 f2 o2 hfresh
    unfold get_dashboard_data
    simp only
    rw [if_neg (by omega : ¬(ttl < now2 - now))]

/-- Witness for C9: a concrete failing recomputation caches the error
payload, and a call one second later (with a healthy oracle) still
serves it. -/
theorem dashboard_error_payload_cached_witness :
    get_dashboard_data 5 0 (some "boom") zeroDashRand exDevState =
      (DashPayload.err "boom" 5,
       { exDevState with cache := some (DashPayload.err "boom" 5), lastCacheUpdate := 5 }) ∧
    get_dashboard_data 6 0 none zeroDashRand
        { exDevState with cache := some (DashPayload.err "boom" 5), lastCacheUpdate := 5 } =
      (DashPayload.err "boom" 5,
       { exDevState with cache := some (DashPayload.err "boom" 5), lastCacheUpdate := 5 }) := by
  have h := dashboard_error_payload_cached 5 0 "boom" zeroDashRand exDevState (Or.inl rfl)
  exact ⟨h.1, h.2 6 0 none zeroDashRand (by decide)⟩

/-- C8: `get_analytics_data` returns exactly five sensor series
(temperature, pressure, vibration, power, humidity), each with exactly
24 labels and 24 values, and it neither reads nor mutates the device
list, the alert list or the dashboard cache: the state component of the
result is the input state itself, for every input state. -/
theorem analytics_shape_and_purity :
    ∀ (nowHour : Nat) (o : String → PatternRand) (s : AppState),
      (get_analytics_data nowHour o s).2 = s ∧
      ((get_analytics_data nowHour o s).1).length = 5 ∧
      ((get_analytics_data nowHour o s).1).map Prod.fst =
        ["temperature", "pressure", "vibration", "power", "humidity"] ∧
      ∀ e ∈ (get_analytics_data nowHour o s).1,
        e.2.labels.length = 24 ∧ e.2.values.length = 24 := by
  intro nowHour o s
  refine ⟨rfl, rfl, rfl, ?_⟩
  intro e he
  simp only [get_analytics_data, List.mem_cons, List.not_mem_nil, or_false] at he
  rcases he with h | h | h | h | h <;> subst h <;>
    exact ⟨by simp, by simp [generate_sensor_pattern]⟩

def patZero : String → PatternRand :=
  fun _ => { psin := fun _ => 0, pnoise := fun _ => 0, pspike := fun _ => 1, pmag := fun _ => 0 }

/-- Witness for C8 at a concrete clock, oracle and store. -/
theorem analytics_shape_and_purity_witness :
    (get_analytics_data 0 patZero exAlertState).2 = exAlertState ∧
    ((get_analytics_data 0 patZero exAlertState).1).length = 5 :=
  ⟨(analytics_shape_and_purity 0 patZero exAlertState).1,
   (analytics_shape_and_purity 0 patZero exAlertState).2.1⟩

theorem baseHealth_eq {h : Nat} (hlt : h < 24) :
    (8 ≤ h ∧ h ≤ 16 → baseHealth h = 90) ∧ (¬(8 ≤ h ∧ h ≤ 16) → baseHealth h = 85) := by
  constructor
  · intro hd
    unfold baseHealth
    rw [if_pos hd]
  · intro hn
    unfold baseHealth
    rw [if_neg hn, if_pos (by omega : (16 ≤ h ∧ h ≤ 24) ∨ h ≤ 8)]

/-- C10: in the 24-point performance-trend series the health baseline is
exactly 90 for hours 8–16 and exactly 85 for every other hour of the
day; the third branch (base 80) is unreachable for every hour the
24-hour loop can produce; and every health and efficiency value is
clamped to [0, 100] and is a whole number of tenths. -/
theorem performance_trends_baselines :
    (∀ h : Nat, h < 24 →
      (8 ≤ h ∧ h ≤ 16 → baseHealth h = 90) ∧
      (¬(8 ≤ h ∧ h ≤ 16) → baseHealth h = 85)) ∧
    (∀ (nowHour i : Nat), baseHealth ((nowHour + i + 1) % 24) ≠ 80) ∧
    (∀ (nowHour : Nat) (nh ne : Nat → ℚ),
      (∀ v ∈ (generate_performance_trends nowHour nh ne).health_scores,
        0 ≤ v ∧ v ≤ 100 ∧ ∃ n : ℤ, v = (n : ℚ) / 10) ∧
      (∀ v ∈ (generate_performance_trends nowHour nh ne).efficiency_scores,
        0 ≤ v ∧ v ≤ 100 ∧ ∃ n : ℤ, v = (n : ℚ) / 10)) := by
  refine ⟨fun h hlt => baseHealth_eq hlt, ?_, ?_⟩
  · intro nowHour i
    have hlt : (nowHour + i + 1) % 24 < 24 := Nat.mod_lt _ (by norm_num)
    by_cases hd : 8 ≤ (nowHour + i + 1) % 24 ∧ (nowHour + i + 1) % 24 ≤ 16
    · rw [(baseHealth_eq hlt).1 hd]
      norm_num
    · rw [(baseHealth_eq hlt).2 hd]
      norm_num
  · intro nowHour nh ne
    constructor
    · intro v hv
      simp only [generate_performance_trends, List.mem_map, List.mem_range] at hv
      rcases hv with ⟨i, _, rfl⟩
      have h0 : (0 : ℚ) ≤ max 0 (min 100 (baseHealth ((nowHour + i + 1) % 24) + nh i)) :=
        le_max_left 0 _
      have h100 : max 0 (min 100 (baseHealth ((nowHour + i + 1) % 24) + nh i)) ≤ 100 :=
        max_le (by norm_num) (min_le_left 100 _)
      exact ⟨round1_nonneg h0, round1_le_hundred h100, round1_tenth _⟩
    · intro v hv
      simp only [generate_performance_trends, List.mem_map, List.mem_range] at hv
      rcases hv with ⟨i, _, rfl⟩
      have h0 : (0 : ℚ) ≤
          max 0 (min 100 ((baseHealth ((nowHour + i + 1) % 24) - 5) + ne i)) :=
        le_max_left 0 _
      have h100 : max 0 (min 100 ((baseHealth ((nowHour + i + 1) % 24) - 5) + ne i)) ≤ 100 :=
        max_le (by norm_num) (min_le_left 100 _)
      exact ⟨round1_nonneg h0, round1_le_hundred h100, round1_tenth _⟩

/-- Witness for C10 at concrete hours: the day-shift baseline is 90, an
off-shift hour gives 85, and the loop never reaches base 80. -/
theorem performance_trends_baselines_witness :
    baseHealth 12 = 90 ∧ baseHealth 3 = 85 ∧ baseHealth ((5 + 0 + 1) % 24) ≠ 80 :=
  ⟨(performance_trends_baselines.1 12 (by norm_num)).1 (by omega),
   (performance_trends_baselines.1 3 (by norm_num)).2 (by omega),
   performance_trends_baselines.2.1 5 0⟩
